import Mathlib

/-
Verification of the basketball shot form analyzer core (src/app.js).

The per-frame pipeline of app.js is shallowly embedded here: JS numbers are
idealized as real numbers, the four global history arrays and the frame
counter become an explicit state record, and the per-frame entry point
onPoseResults is modelled as a function from the optional landmark array and
the current state to an Except value (a thrown TypeError on a missing
landmark becomes an error value).
-/

noncomputable section

/-- A body landmark with normalized 2D coordinates, as produced by the pose
source and consumed by app.js. -/
structure Landmark where
  x : ℝ
  y : ℝ

/-- Two-argument arctangent with the semantics of JS Math.atan2 on real
inputs: result in the interval from -pi (exclusive) to pi (inclusive). -/
def atan2 (y x : ℝ) : ℝ :=
  if 0 < x then Real.arctan (y / x)
  else if x < 0 then
    (if 0 ≤ y then Real.arctan (y / x) + Real.pi else Real.arctan (y / x) - Real.pi)
  else
    (if 0 < y then Real.pi / 2 else if y < 0 then -(Real.pi / 2) else 0)

/-- calculateAngle from app.js: angle at vertex point2 between point1 and
point3, in degrees, folded into the range 0 to 180. -/
def calculateAngle (point1 point2 point3 : Landmark) : ℝ :=
  let radians := atan2 (point3.y - point2.y) (point3.x - point2.x) -
                 atan2 (point1.y - point2.y) (point1.x - point2.x)
  let angle := |radians * 180 / Real.pi|
  if angle > 180 then 360 - angle else angle

/-- calculateReleaseAngle from app.js: angle of the shoulder-to-wrist segment
above the horizontal, in degrees, floored at 0. -/
def calculateReleaseAngle (shoulder wrist : Landmark) : ℝ :=
  let deltaY := shoulder.y - wrist.y
  let deltaX := |shoulder.x - wrist.x|
  let angle := atan2 deltaY deltaX * 180 / Real.pi
  max 0 angle

/-- calculateAlignment from app.js: shoulder-level score, 100 minus 1000 times
the vertical shoulder difference, floored at 0. -/
def calculateAlignment (leftShoulder rightShoulder : Landmark) : ℝ :=
  let shoulderDiff := |leftShoulder.y - rightShoulder.y|
  max 0 (100 - shoulderDiff * 1000)

/-- scoreElbowAngle from app.js. -/
def scoreElbowAngle (angle : ℝ) : ℝ :=
  let optimal : ℝ := 90
  let tolerance : ℝ := 10
  let diff := |angle - optimal|
  if diff ≤ tolerance then 100 - diff * 5
  else max 0 (50 - (diff - tolerance) * 2)

/-- scoreReleaseHeight from app.js. -/
def scoreReleaseHeight (angle : ℝ) : ℝ :=
  if 45 ≤ angle ∧ angle ≤ 60 then 100
  else if angle < 45 then max 0 (angle / 45 * 100)
  else max 0 (100 - (angle - 60) * 3)

/-- scoreKneeAngle from app.js. -/
def scoreKneeAngle (angle : ℝ) : ℝ :=
  if 100 ≤ angle ∧ angle ≤ 130 then 100
  else if angle < 100 then max 0 (angle / 100 * 100)
  else max 0 (100 - (angle - 130) * 2)

/-- average from app.js: arithmetic mean of a list, 0 for the empty list. -/
def average (arr : List ℝ) : ℝ :=
  if arr.length = 0 then 0 else arr.sum / arr.length

/-- JS Math.round on real inputs: nearest integer, ties toward positive
infinity, i.e. the floor of x + 1/2. -/
def jround (x : ℝ) : ℤ := ⌊x + 1 / 2⌋

/-- The composite score computed in analyzeShootingForm in app.js. -/
def overallScore (elbowScore releaseScore kneeScore alignmentScoreValue : ℝ) : ℤ :=
  jround (elbowScore * 0.3 + releaseScore * 0.3 + kneeScore * 0.2 +
    alignmentScoreValue * 0.2)

/-- C3: the four scoring functions satisfy the point checks named in the spec
(elbowScore 90 = 100, elbowScore 70 = 30, releaseScore 50 = 100,
releaseScore 30 = 30/45*100, kneeScore 115 = 100, alignment score 50 at a
shoulder vertical difference of 0.05) and follow the stated piecewise laws. -/
theorem C3_scoring_laws :
    scoreElbowAngle 90 = 100 ∧ scoreElbowAngle 70 = 30 ∧
    scoreReleaseHeight 50 = 100 ∧ scoreReleaseHeight 30 = 30 / 45 * 100 ∧
    scoreKneeAngle 115 = 100 ∧
    (∀ leftS rightS : Landmark, |leftS.y - rightS.y| = 0.05 →
      calculateAlignment leftS rightS = 50) ∧
    (∀ a : ℝ, |a - 90| ≤ 10 → scoreElbowAngle a = 100 - 5 * |a - 90|) ∧
    (∀ a : ℝ, 10 < |a - 90| → scoreElbowAngle a = max 0 (50 - 2 * (|a - 90| - 10))) ∧
    (∀ a : ℝ, 45 ≤ a → a ≤ 60 → scoreReleaseHeight a = 100) ∧
    (∀ a : ℝ, a < 45 → scoreReleaseHeight a = max 0 (a / 45 * 100)) ∧
    (∀ a : ℝ, 60 < a → scoreReleaseHeight a = max 0 (100 - 3 * (a - 60))) ∧
    (∀ a : ℝ, 100 ≤ a → a ≤ 130 → scoreKneeAngle a = 100) ∧
    (∀ a : ℝ, a < 100 → scoreKneeAngle a = max 0 (a / 100 * 100)) ∧
    (∀ a : ℝ, 130 < a → scoreKneeAngle a = max 0 (100 - 2 * (a - 130))) ∧
    (∀ leftS rightS : Landmark,
      calculateAlignment leftS rightS = max 0 (100 - 1000 * |leftS.y - rightS.y|)) := by
  refine ⟨?_, ?_, ?_, ?_, ?_, ?_, ?_, ?_, ?_, ?_, ?_, ?_, ?_, ?_, ?_⟩
  · have h : |(90:ℝ) - 90| = 0 := by norm_num
    simp only [scoreElbowAngle, h]
    norm_num
  · have h : |(70:ℝ) - 90| = 20 := by
      rw [abs_sub_comm]
      rw [show (90:ℝ) - 70 = 20 by norm_num]
      exact abs_of_nonneg (by norm_num)
    simp only [scoreElbowAngle, h]
    norm_num
  · simp only [scoreReleaseHeight]
    norm_num
  · simp only [scoreReleaseHeight]
    norm_num
  · simp only [scoreKneeAngle]
    norm_num
  · intro leftS rightS h
    simp only [calculateAlignment, h]
    norm_num
  · intro a h
    simp only [scoreElbowAngle, if_pos h]
    ring
  · intro a h
    simp only [scoreElbowAngle, if_neg (not_le.mpr h)]
    ring_nf
  · intro a h1 h2
    simp only [scoreReleaseHeight, if_pos (And.intro h1 h2)]
  · intro a h
    have hn : ¬ (45 ≤ a ∧ a ≤ 60) := by
      intro hc
      linarith [hc.1]
    simp only [scoreReleaseHeight, if_neg hn, if_pos h]
  · intro a h
    have hn : ¬ (45 ≤ a ∧ a ≤ 60) := by
      intro hc
      linarith [hc.2]
    have hn2 : ¬ (a < 45) := by linarith
    simp only [scoreReleaseHeight, if_neg hn, if_neg hn2]
    ring_nf
  · intro a h1 h2
    simp only [scoreKneeAngle, if_pos (And.intro h1 h2)]
  · intro a h
    have hn : ¬ (100 ≤ a ∧ a ≤ 130) := by
      intro hc
      linarith [hc.1]
    simp only [scoreKneeAngle, if_neg hn, if_pos h]
  · intro a h
    have hn : ¬ (100 ≤ a ∧ a ≤ 130) := by
      intro hc
      linarith [hc.2]
    have hn2 : ¬ (a < 100) := by linarith
    simp only [scoreKneeAngle, if_neg hn, if_neg hn2]
    ring_nf
  · intro leftS rightS
    simp only [calculateAlignment]
    ring_nf

/-- Witness for C3: the hypothesis-bearing conjuncts exercised at concrete
inputs. -/
theorem C3_scoring_laws_witness :
    calculateAlignment ⟨0, 0.05⟩ ⟨0, 0⟩ = 50 ∧
    scoreElbowAngle 95 = 100 - 5 * |(95:ℝ) - 90| ∧
    scoreReleaseHeight 70 = max 0 (100 - 3 * ((70:ℝ) - 60)) ∧
    scoreKneeAngle 90 = max 0 ((90:ℝ) / 100 * 100) := by
  obtain ⟨-, -, -, -, -, halign, helb1, -, -, -, hrel, -, hknee, -, -⟩ := C3_scoring_laws
  refine ⟨halign _ _ ?_, helb1 95 ?_, hrel 70 (by norm_num), hknee 90 (by norm_num)⟩
  · show |(0.05:ℝ) - 0| = 0.05
    rw [sub_zero]
    exact abs_of_nonneg (by norm_num)
  · have h : |(95:ℝ) - 90| = 5 := by
      rw [show (95:ℝ) - 90 = 5 by norm_num]
      exact abs_of_nonneg (by norm_num)
    rw [h]
    norm_num

/-- C4: for per-metric scores in the range 0 to 100 the composite equals the
rounded weighted sum with weights 0.3, 0.3, 0.2, 0.2 and lies in 0 to 100; it
is 100 when all inputs are 100 and 0 when all inputs are 0. -/
theorem C4_composite_bounds :
    (∀ e r k a : ℝ, 0 ≤ e → e ≤ 100 → 0 ≤ r → r ≤ 100 → 0 ≤ k → k ≤ 100 →
      0 ≤ a → a ≤ 100 →
      overallScore e r k a = ⌊e * 0.3 + r * 0.3 + k * 0.2 + a * 0.2 + 1 / 2⌋ ∧
      0 ≤ overallScore e r k a ∧ overallScore e r k a ≤ 100) ∧
    overallScore 100 100 100 100 = 100 ∧ overallScore 0 0 0 0 = 0 := by
  refine ⟨?_, ?_, ?_⟩
  · intro e r k a he0 he1 hr0 hr1 hk0 hk1 ha0 ha1
    have h3 : (0.3:ℝ) = 3 / 10 := by norm_num
    have h2 : (0.2:ℝ) = 2 / 10 := by norm_num
    refine ⟨rfl, ?_, ?_⟩
    · rw [overallScore, jround]
      rw [Int.le_floor]
      push_cast
      rw [h3, h2]
      linarith
    · rw [overallScore, jround]
      have hlt : ⌊e * 0.3 + r * 0.3 + k * 0.2 + a * 0.2 + 1 / 2⌋ < 101 := by
        rw [Int.floor_lt]
        push_cast
        rw [h3, h2]
        linarith
      omega
  · rw [overallScore, jround]
    rw [show (100:ℝ) * 0.3 + 100 * 0.3 + 100 * 0.2 + 100 * 0.2 + 1 / 2 = 100 + 1 / 2 by
      norm_num]
    rw [Int.floor_eq_iff]
    constructor
    · push_cast
      norm_num
    · push_cast
      norm_num
  · rw [overallScore, jround]
    rw [show (0:ℝ) * 0.3 + 0 * 0.3 + 0 * 0.2 + 0 * 0.2 + 1 / 2 = 1 / 2 by norm_num]
    rw [Int.floor_eq_iff]
    constructor
    · push_cast
      norm_num
    · push_cast
      norm_num

/-- Witness for C4 at concrete in-range scores. -/
theorem C4_composite_bounds_witness :
    overallScore 80 90 70 60 = ⌊(80:ℝ) * 0.3 + 90 * 0.3 + 70 * 0.2 + 60 * 0.2 + 1 / 2⌋ ∧
    0 ≤ overallScore 80 90 70 60 ∧ overallScore 80 90 70 60 ≤ 100 :=
  C4_composite_bounds.1 80 90 70 60 (by norm_num) (by norm_num) (by norm_num)
    (by norm_num) (by norm_num) (by norm_num) (by norm_num) (by norm_num)

lemma arctan_nonpos_of {x : ℝ} (h : x ≤ 0) : Real.arctan x ≤ 0 := by
  have hm : Real.arctan x ≤ Real.arctan 0 := Real.arctan_strictMono.monotone h
  rwa [Real.arctan_zero] at hm

lemma arctan_pos_of {x : ℝ} (h : 0 < x) : 0 < Real.arctan x := by
  have hm : Real.arctan 0 < Real.arctan x := Real.arctan_strictMono h
  rwa [Real.arctan_zero] at hm

lemma atan2_le_pi (y x : ℝ) : atan2 y x ≤ Real.pi := by
  unfold atan2
  split_ifs with h1 h2 h3 h4 h5
  · linarith [Real.arctan_lt_pi_div_two (y / x), Real.pi_pos]
  · have hyx : y / x ≤ 0 := div_nonpos_iff.mpr (Or.inl ⟨h3, h2.le⟩)
    linarith [arctan_nonpos_of hyx]
  · linarith [Real.arctan_lt_pi_div_two (y / x), Real.pi_pos]
  · linarith [Real.pi_pos]
  · linarith [Real.pi_pos]
  · linarith [Real.pi_pos]

lemma neg_pi_lt_atan2 (y x : ℝ) : -Real.pi < atan2 y x := by
  unfold atan2
  split_ifs with h1 h2 h3 h4 h5
  · linarith [Real.neg_pi_div_two_lt_arctan (y / x), Real.pi_pos]
  · linarith [Real.neg_pi_div_two_lt_arctan (y / x), Real.pi_pos]
  · have hyx : 0 < y / x := div_pos_iff.mpr (Or.inr ⟨not_le.mp h3, h2⟩)
    linarith [arctan_pos_of hyx]
  · linarith [Real.pi_pos]
  · linarith [Real.pi_pos]
  · linarith [Real.pi_pos]

lemma calculateAngle_bounds (p1 p2 p3 : Landmark) :
    0 ≤ calculateAngle p1 p2 p3 ∧ calculateAngle p1 p2 p3 ≤ 180 := by
  simp only [calculateAngle]
  set A := atan2 (p3.y - p2.y) (p3.x - p2.x) with hA
  set B := atan2 (p1.y - p2.y) (p1.x - p2.x) with hB
  have ha1 : A ≤ Real.pi := by rw [hA]; exact atan2_le_pi _ _
  have ha2 : -Real.pi < A := by rw [hA]; exact neg_pi_lt_atan2 _ _
  have hb1 : B ≤ Real.pi := by rw [hB]; exact atan2_le_pi _ _
  have hb2 : -Real.pi < B := by rw [hB]; exact neg_pi_lt_atan2 _ _
  have habs : |(A - B) * 180 / Real.pi| = |A - B| * 180 / Real.pi := by
    rw [abs_div, abs_mul, abs_of_pos Real.pi_pos,
      abs_of_nonneg (show (0:ℝ) ≤ 180 by norm_num)]
  have hr : |A - B| < 2 * Real.pi := abs_sub_lt_iff.mpr ⟨by linarith, by linarith⟩
  have h360 : |A - B| * 180 / Real.pi < 360 := by
    rw [div_lt_iff Real.pi_pos]
    linarith
  have h0 : 0 ≤ |A - B| * 180 / Real.pi := by positivity
  rw [habs]
  split_ifs with h
  · exact ⟨by linarith, by linarith⟩
  · exact ⟨h0, not_lt.mp h⟩

lemma calculateAngle_swap (p1 p2 p3 : Landmark) :
    calculateAngle p3 p2 p1 = calculateAngle p1 p2 p3 := by
  simp only [calculateAngle]
  rw [show (atan2 (p1.y - p2.y) (p1.x - p2.x) - atan2 (p3.y - p2.y) (p3.x - p2.x)) *
        180 / Real.pi
      = -((atan2 (p3.y - p2.y) (p3.x - p2.x) - atan2 (p1.y - p2.y) (p1.x - p2.x)) *
        180 / Real.pi) by ring]
  rw [abs_neg]

/-- C5: for all landmark triples, including degenerate and coincident points,
calculateAngle is total, returns a value between 0 and 180 degrees, and is
unchanged when the two points around the vertex are swapped. -/
theorem C5_angle_range_symm :
    ∀ p1 p2 p3 : Landmark,
      (0 ≤ calculateAngle p1 p2 p3 ∧ calculateAngle p1 p2 p3 ≤ 180) ∧
      calculateAngle p3 p2 p1 = calculateAngle p1 p2 p3 :=
  fun p1 p2 p3 => ⟨calculateAngle_bounds p1 p2 p3, calculateAngle_swap p1 p2 p3⟩

/-- C6: calculateReleaseAngle is the atan2 of the vertical rise over the
absolute horizontal separation, in degrees, floored at 0, and with a nonzero
fixed horizontal separation a wrist raised above the shoulder yields a
strictly larger positive angle. -/
theorem C6_release_angle :
    (∀ s w : Landmark, 0 ≤ calculateReleaseAngle s w ∧
      calculateReleaseAngle s w =
        max 0 (atan2 (s.y - w.y) |s.x - w.x| * 180 / Real.pi)) ∧
    (∀ s w w2 : Landmark, s.x ≠ w.x → w2.x = w.x → w2.y < w.y → w2.y < s.y →
      calculateReleaseAngle s w < calculateReleaseAngle s w2 ∧
      0 < calculateReleaseAngle s w2) := by
  constructor
  · intro s w
    exact ⟨le_max_left _ _, rfl⟩
  · intro s w w2 hx hx2 hy hy2
    have hdx : 0 < |s.x - w.x| := abs_pos.mpr (sub_ne_zero.mpr hx)
    have hdx2 : |s.x - w2.x| = |s.x - w.x| := by rw [hx2]
    simp only [calculateReleaseAngle]
    rw [hdx2]
    simp only [atan2]
    rw [if_pos hdx, if_pos hdx]
    have harg : (s.y - w.y) / |s.x - w.x| < (s.y - w2.y) / |s.x - w.x| :=
      (div_lt_div_right hdx).mpr (by linarith)
    have harctan := Real.arctan_strictMono harg
    have hpos : 0 < Real.arctan ((s.y - w2.y) / |s.x - w.x|) :=
      arctan_pos_of (div_pos (by linarith) hdx)
    have hpos2 : 0 < Real.arctan ((s.y - w2.y) / |s.x - w.x|) * 180 / Real.pi :=
      div_pos (mul_pos hpos (by norm_num)) Real.pi_pos
    have hlt : Real.arctan ((s.y - w.y) / |s.x - w.x|) * 180 / Real.pi <
        Real.arctan ((s.y - w2.y) / |s.x - w.x|) * 180 / Real.pi := by
      apply (div_lt_div_right Real.pi_pos).mpr
      linarith
    constructor
    · rw [max_eq_right hpos2.le]
      exact max_lt hpos2 hlt
    · rw [max_eq_right hpos2.le]
      exact hpos2

/-- Witness for C6 at concrete shoulder and wrist positions. -/
theorem C6_release_angle_witness :
    calculateReleaseAngle ⟨0, 1⟩ ⟨1, 2⟩ < calculateReleaseAngle ⟨0, 1⟩ ⟨1, 0⟩ ∧
    0 < calculateReleaseAngle ⟨0, 1⟩ ⟨1, 0⟩ :=
  C6_release_angle.2 ⟨0, 1⟩ ⟨1, 2⟩ ⟨1, 0⟩ (by norm_num) (by norm_num)
    (by norm_num) (by norm_num)

/-- The analysisData global of app.js: four history queues of raw metrics. -/
structure AnalysisData where
  elbowAngles : List ℝ
  releaseHeights : List ℝ
  kneeAngles : List ℝ
  alignmentScores : List ℝ

/-- The mutable globals of app.js relevant to analysis: the four history
queues and the frame counter. -/
structure AnalyzerState where
  analysisData : AnalysisData
  frameCount : ℕ

/-- resetStats from app.js: the state after a reset, with all four queues
empty and the frame counter zeroed. -/
def resetStats : AnalyzerState := ⟨⟨[], [], [], []⟩, 0⟩

/-- The per-frame numbers analyzeShootingForm hands to the presentation
layer: smoothed metrics, per-metric scores and the composite score. -/
structure AnalysisResult where
  avgElbow : ℝ
  avgRelease : ℝ
  avgKnee : ℝ
  avgAlignment : ℝ
  elbowScore : ℝ
  releaseScore : ℝ
  kneeScore : ℝ
  alignmentScoreValue : ℝ
  overall : ℤ

/-- Indexing into the landmark array; a missing entry models a JS undefined
element (either a short array or a hole). -/
def getLm (landmarks : List (Option Landmark)) (i : ℕ) : Option Landmark :=
  (landmarks.get? i).join

/-- analyzeShootingForm from app.js. Reads the seven landmarks it uses; if
any is undefined its member access throws, modelled as an error value. On
success it pushes the four raw metrics, evicts the oldest entries when the
elbow queue exceeds 30, and returns the updated queues and the emitted
result. -/
def analyzeShootingForm (landmarks : List (Option Landmark)) (data : AnalysisData) :
    Except String (AnalysisData × AnalysisResult) :=
  match getLm landmarks 12, getLm landmarks 14, getLm landmarks 16,
      getLm landmarks 24, getLm landmarks 26, getLm landmarks 28,
      getLm landmarks 11 with
  | some rightShoulder, some rightElbow, some rightWrist, some rightHip,
    some rightKnee, some rightAnkle, some leftShoulder =>
    let elbowAngle := calculateAngle rightShoulder rightElbow rightWrist
    let releaseHeight := calculateReleaseAngle rightShoulder rightWrist
    let kneeAngle := calculateAngle rightHip rightKnee rightAnkle
    let alignmentScore := calculateAlignment leftShoulder rightShoulder
    let pushed : AnalysisData :=
      ⟨data.elbowAngles ++ [elbowAngle], data.releaseHeights ++ [releaseHeight],
       data.kneeAngles ++ [kneeAngle], data.alignmentScores ++ [alignmentScore]⟩
    let trimmed : AnalysisData :=
      if pushed.elbowAngles.length > 30 then
        ⟨pushed.elbowAngles.tail, pushed.releaseHeights.tail,
         pushed.kneeAngles.tail, pushed.alignmentScores.tail⟩
      else pushed
    let avgElbow := average trimmed.elbowAngles
    let avgRelease := average trimmed.releaseHeights
    let avgKnee := average trimmed.kneeAngles
    let avgAlignment := average trimmed.alignmentScores
    let elbowScore := scoreElbowAngle avgElbow
    let releaseScore := scoreReleaseHeight avgRelease
    let kneeScore := scoreKneeAngle avgKnee
    let alignmentScoreValue := avgAlignment
    let overall := overallScore elbowScore releaseScore kneeScore alignmentScoreValue
    Except.ok (trimmed,
      ⟨avgElbow, avgRelease, avgKnee, avgAlignment,
       elbowScore, releaseScore, kneeScore, alignmentScoreValue, overall⟩)
  | _, _, _, _, _, _, _ =>
    Except.error "TypeError: cannot read properties of undefined"

/-- What one call of onPoseResults reports to the presentation layer. -/
inductive FrameOutcome where
  | noSubject : FrameOutcome
  | analyzed : AnalysisResult → FrameOutcome

/-- onPoseResults from app.js: the per-frame entry point. A missing
detection (poseLandmarks falsy) skips analysis and leaves the state alone;
otherwise analyzeShootingForm runs and the frame counter is incremented. -/
def onPoseResults (poseLandmarks : Option (List (Option Landmark)))
    (s : AnalyzerState) : Except String (AnalyzerState × FrameOutcome) :=
  match poseLandmarks with
  | none => Except.ok (s, FrameOutcome.noSubject)
  | some landmarks =>
    match analyzeShootingForm landmarks s.analysisData with
    | Except.error e => Except.error e
    | Except.ok (data, result) =>
      Except.ok (⟨data, s.frameCount + 1⟩, FrameOutcome.analyzed result)

/-- Sequential processing of a list of frames through onPoseResults. -/
def processFrames (inputs : List (Option (List (Option Landmark))))
    (s : AnalyzerState) : Except String AnalyzerState :=
  match inputs with
  | [] => Except.ok s
  | input :: rest =>
    match onPoseResults input s with
    | Except.error e => Except.error e
    | Except.ok (s2, _) => processFrames rest s2

/-- The single-queue sliding-window update performed (on all four queues at
once) by analyzeShootingForm: append, then evict the oldest entry if the
length now exceeds 30. -/
def pushEvict (q : List ℝ) (v : ℝ) : List ℝ :=
  let appended := q ++ [v]
  if appended.length > 30 then appended.tail else appended

/-- The four history queues have equal lengths. -/
def EqLen (d : AnalysisData) : Prop :=
  d.releaseHeights.length = d.elbowAngles.length ∧
  d.kneeAngles.length = d.elbowAngles.length ∧
  d.alignmentScores.length = d.elbowAngles.length

/-- EqLen holds for the queues of a successful analyzeShootingForm value;
an error value imposes nothing. -/
def EqLenE (e : Except String (AnalysisData × AnalysisResult)) : Prop :=
  match e with
  | Except.ok out => EqLen out.1
  | Except.error _ => True

/-- Overall feedback tier chosen by updateFeedback in app.js. -/
inductive Tier where
  | excellent : Tier
  | good : Tier
  | fair : Tier
  | needsImprovement : Tier

/-- updateFeedback from app.js: overall tier by descending thresholds,
first match wins. -/
def updateFeedback (overall : ℝ) : Tier :=
  if overall ≥ 85 then Tier.excellent
  else if overall ≥ 70 then Tier.good
  else if overall ≥ 50 then Tier.fair
  else Tier.needsImprovement

/-- Elbow label chosen by updateStatusMessages in app.js. -/
inductive ElbowStatus where
  | optimal : ElbowStatus
  | raiseElbow : ElbowStatus
  | lowerElbow : ElbowStatus

/-- Release label chosen by updateStatusMessages in app.js. -/
inductive ReleaseStatus where
  | optimal : ReleaseStatus
  | tooLow : ReleaseStatus
  | tooHigh : ReleaseStatus

/-- Knee label chosen by updateStatusMessages in app.js. -/
inductive KneeStatus where
  | optimal : KneeStatus
  | bendMore : KneeStatus
  | tooBent : KneeStatus

/-- Alignment label chosen by updateStatusMessages in app.js. -/
inductive AlignmentStatus where
  | optimal : AlignmentStatus
  | checkShoulderLevel : AlignmentStatus

/-- The elbow branch of updateStatusMessages in app.js. -/
def elbowStatus (elbow : ℝ) : ElbowStatus :=
  if elbow ≥ 85 ∧ elbow ≤ 95 then ElbowStatus.optimal
  else if elbow < 85 then ElbowStatus.raiseElbow
  else ElbowStatus.lowerElbow

/-- The release branch of updateStatusMessages in app.js. -/
def releaseStatus (release : ℝ) : ReleaseStatus :=
  if release ≥ 45 ∧ release ≤ 60 then ReleaseStatus.optimal
  else if release < 45 then ReleaseStatus.tooLow
  else ReleaseStatus.tooHigh

/-- The knee branch of updateStatusMessages in app.js. -/
def kneeStatus (knee : ℝ) : KneeStatus :=
  if knee ≥ 100 ∧ knee ≤ 130 then KneeStatus.optimal
  else if knee < 100 then KneeStatus.bendMore
  else KneeStatus.tooBent

/-- The alignment branch of updateStatusMessages in app.js. -/
def alignmentStatus (alignment : ℝ) : AlignmentStatus :=
  if alignment ≥ 90 then AlignmentStatus.optimal
  else AlignmentStatus.checkShoulderLevel

/-- updateStatusMessages from app.js: the four per-metric labels. -/
def updateStatusMessages (elbow release knee alignment : ℝ) :
    ElbowStatus × ReleaseStatus × KneeStatus × AlignmentStatus :=
  (elbowStatus elbow, releaseStatus release, kneeStatus knee, alignmentStatus alignment)

/-- A concrete landmark used by witnesses. -/
def demoLm : Landmark := ⟨1 / 2, 1 / 2⟩

/-- A complete landmark array: entries 0 to 28 all present. -/
def demoLms : List (Option Landmark) := List.replicate 29 (some demoLm)

/-- A partial landmark array: entries 0 to 11 present, so the right shoulder
(index 12) and everything beyond are missing while detection is present. -/
def demoPartialLms : List (Option Landmark) := List.replicate 12 (some demoLm)

lemma foldl_pushEvict_small (vs : List ℝ) :
    ∀ acc : List ℝ, acc.length + vs.length ≤ 30 →
      List.foldl pushEvict acc vs = acc ++ vs := by
  induction vs with
  | nil =>
    intro acc h
    simp
  | cons v rest ih =>
    intro acc h
    simp only [List.length_cons] at h
    have hstep : pushEvict acc v = acc ++ [v] := by
      simp only [pushEvict, List.length_append, List.length_cons, List.length_nil]
      rw [if_neg (by omega)]
    rw [List.foldl_cons, hstep, ih (acc ++ [v]) (by simp; omega)]
    simp

lemma foldl_pushEvict_31 (v0 : ℝ) (rest : List ℝ) (h : rest.length = 30) :
    List.foldl pushEvict [] (v0 :: rest) = rest := by
  have hne : rest ≠ [] := by
    intro hc
    rw [hc] at h
    simp at h
  have hfl : rest.dropLast ++ [rest.getLast hne] = rest :=
    List.dropLast_append_getLast hne
  have hfront : rest.dropLast.length = 29 := by
    have := congrArg List.length hfl
    simp only [List.length_append, List.length_cons, List.length_nil] at this
    omega
  have h1 : pushEvict [] v0 = [v0] := by
    simp [pushEvict]
  rw [List.foldl_cons, h1, ← hfl, List.foldl_append]
  rw [foldl_pushEvict_small rest.dropLast [v0] (by simp [hfront])]
  simp only [List.foldl_cons, List.foldl_nil]
  simp only [pushEvict, List.length_append, List.length_cons, List.length_nil]
  rw [if_pos (by omega)]
  simp

/-- C1 counterexample: with detection present (a landmark array is supplied)
but the required joints missing, onPoseResults neither skips nor emits the
no-subject result; the landmark access fails and the error escapes. -/
theorem C1_incomplete_landmarks_counterexample :
    onPoseResults (some demoPartialLms) resetStats =
      Except.error "TypeError: cannot read properties of undefined" ∧
    ¬ onPoseResults (some demoPartialLms) resetStats =
      Except.ok (resetStats, FrameOutcome.noSubject) := by
  refine ⟨rfl, ?_⟩
  intro h
  rw [show onPoseResults (some demoPartialLms) resetStats =
      Except.error "TypeError: cannot read properties of undefined" from rfl] at h
  exact Except.noConfusion h

/-- C1 amended: only frames with detection entirely absent are skipped with a
no-subject result and an unchanged state; when detection is present but any
required joint landmark is missing, analysis is still invoked, the landmark
access fails, and a TypeError escapes the per-frame entry point. -/
theorem C1_incomplete_landmarks :
    (∀ s : AnalyzerState, onPoseResults none s = Except.ok (s, FrameOutcome.noSubject)) ∧
    (∀ (s : AnalyzerState) (lms : List (Option Landmark)),
      getLm lms 12 = none ∨ getLm lms 14 = none ∨ getLm lms 16 = none ∨
      getLm lms 24 = none ∨ getLm lms 26 = none ∨ getLm lms 28 = none ∨
      getLm lms 11 = none →
      onPoseResults (some lms) s =
        Except.error "TypeError: cannot read properties of undefined") := by
  constructor
  · intro s
    rfl
  · intro s lms h
    rcases e12 : getLm lms 12 with _ | rs <;>
    rcases e14 : getLm lms 14 with _ | re <;>
    rcases e16 : getLm lms 16 with _ | rwr <;>
    rcases e24 : getLm lms 24 with _ | rh <;>
    rcases e26 : getLm lms 26 with _ | rk <;>
    rcases e28 : getLm lms 28 with _ | ra <;>
    rcases e11 : getLm lms 11 with _ | ls <;>
    simp_all [onPoseResults, analyzeShootingForm]

/-- Witness for the amended C1 on a concrete partial landmark array. -/
theorem C1_incomplete_landmarks_witness :
    onPoseResults (some demoPartialLms) ⟨⟨[], [], [], []⟩, 5⟩ =
      Except.error "TypeError: cannot read properties of undefined" :=
  C1_incomplete_landmarks.2 ⟨⟨[], [], [], []⟩, 5⟩ demoPartialLms (Or.inl rfl)

/-- C2: the sliding-window discipline. Appending through pushEvict keeps every
queue at length at most 30; after 31 pushes from empty the window holds
exactly the last 30 values, so the smoothed mean ignores the 1st pushed
value; and on a valid frame analyzeShootingForm updates each of the four
queues exactly by pushEvict with that frame raw metric. -/
theorem C2_sliding_window :
    (∀ (q : List ℝ) (v : ℝ), q.length ≤ 30 → (pushEvict q v).length ≤ 30) ∧
    (∀ (v0 : ℝ) (rest : List ℝ), rest.length = 30 →
      List.foldl pushEvict [] (v0 :: rest) = rest ∧
      average (List.foldl pushEvict [] (v0 :: rest)) = average rest) ∧
    (∀ (lms : List (Option Landmark)) (data : AnalysisData) rs re rwr rh rk ra ls,
      getLm lms 12 = some rs → getLm lms 14 = some re → getLm lms 16 = some rwr →
      getLm lms 24 = some rh → getLm lms 26 = some rk → getLm lms 28 = some ra →
      getLm lms 11 = some ls → EqLen data →
      Except.map Prod.fst (analyzeShootingForm lms data) =
        Except.ok ⟨pushEvict data.elbowAngles (calculateAngle rs re rwr),
          pushEvict data.releaseHeights (calculateReleaseAngle rs rwr),
          pushEvict data.kneeAngles (calculateAngle rh rk ra),
          pushEvict data.alignmentScores (calculateAlignment ls rs)⟩) := by
  refine ⟨?_, ?_, ?_⟩
  · intro q v hq
    simp only [pushEvict]
    have hlen : (q ++ [v]).length = q.length + 1 := by
      simp
    split_ifs with hc
    · rw [List.length_tail, hlen]
      omega
    · rw [hlen]
      omega
  · intro v0 rest h
    rw [foldl_pushEvict_31 v0 rest h]
    exact ⟨rfl, rfl⟩
  · intro lms data rs re rwr rh rk ra ls h12 h14 h16 h24 h26 h28 h11 hlen
    obtain ⟨hrl, hkl, hal⟩ := hlen
    simp only [analyzeShootingForm, h12, h14, h16, h24, h26, h28, h11, Except.map,
      pushEvict, Except.ok.injEq, List.length_append, List.length_singleton,
      hrl, hkl, hal, gt_iff_lt]
    split_ifs with hc <;> simp

/-- Witness for C2 at concrete queues and a concrete valid frame. -/
theorem C2_sliding_window_witness :
    (pushEvict (List.replicate 30 (1:ℝ)) 2).length ≤ 30 ∧
    List.foldl pushEvict [] ((7:ℝ) :: List.replicate 30 1) = List.replicate 30 1 ∧
    Except.map Prod.fst (analyzeShootingForm demoLms ⟨[], [], [], []⟩) =
      Except.ok ⟨pushEvict [] (calculateAngle demoLm demoLm demoLm),
        pushEvict [] (calculateReleaseAngle demoLm demoLm),
        pushEvict [] (calculateAngle demoLm demoLm demoLm),
        pushEvict [] (calculateAlignment demoLm demoLm)⟩ :=
  ⟨C2_sliding_window.1 (List.replicate 30 1) 2 (by simp),
   (C2_sliding_window.2.1 7 (List.replicate 30 1) (by simp)).1,
   C2_sliding_window.2.2 demoLms ⟨[], [], [], []⟩ demoLm demoLm demoLm demoLm demoLm
     demoLm demoLm rfl rfl rfl rfl rfl rfl rfl ⟨rfl, rfl, rfl⟩⟩

/-- C7: a sequence of frames with no pose detection leaves the whole analyzer
state, in particular every history queue and the frame counter, exactly as it
was, and each such frame reports the no-subject outcome. -/
theorem C7_no_detection_sequence :
    ∀ (n : ℕ) (s : AnalyzerState),
      processFrames (List.replicate n none) s = Except.ok s ∧
      onPoseResults none s = Except.ok (s, FrameOutcome.noSubject) := by
  intro n
  induction n with
  | zero =>
    intro s
    exact ⟨rfl, rfl⟩
  | succ m ih =>
    intro s
    refine ⟨?_, rfl⟩
    rw [List.replicate_succ]
    have hstep : processFrames (none :: List.replicate m none) s =
        processFrames (List.replicate m none) s := rfl
    rw [hstep]
    exact (ih s).1

/-- C8: resetStats empties all four queues and zeroes the frame counter, and
the first valid frame after a reset has each smoothed metric equal to that
frame raw metric, the mean of a one-element window. -/
theorem C8_reset_then_first_frame :
    resetStats.analysisData = ⟨[], [], [], []⟩ ∧ resetStats.frameCount = 0 ∧
    (∀ (lms : List (Option Landmark)) rs re rwr rh rk ra ls,
      getLm lms 12 = some rs → getLm lms 14 = some re → getLm lms 16 = some rwr →
      getLm lms 24 = some rh → getLm lms 26 = some rk → getLm lms 28 = some ra →
      getLm lms 11 = some ls →
      Except.map (fun out => (out.2.avgElbow, out.2.avgRelease, out.2.avgKnee,
          out.2.avgAlignment)) (analyzeShootingForm lms resetStats.analysisData) =
        Except.ok (calculateAngle rs re rwr, calculateReleaseAngle rs rwr,
          calculateAngle rh rk ra, calculateAlignment ls rs)) := by
  refine ⟨rfl, rfl, ?_⟩
  intro lms rs re rwr rh rk ra ls h12 h14 h16 h24 h26 h28 h11
  simp only [resetStats]
  simp only [analyzeShootingForm, h12, h14, h16, h24, h26, h28, h11, Except.map]
  simp [average]

/-- Witness for C8 on a concrete complete landmark array. -/
theorem C8_reset_then_first_frame_witness :
    Except.map (fun out => (out.2.avgElbow, out.2.avgRelease, out.2.avgKnee,
        out.2.avgAlignment)) (analyzeShootingForm demoLms resetStats.analysisData) =
      Except.ok (calculateAngle demoLm demoLm demoLm, calculateReleaseAngle demoLm demoLm,
        calculateAngle demoLm demoLm demoLm, calculateAlignment demoLm demoLm) :=
  C8_reset_then_first_frame.2.2 demoLms demoLm demoLm demoLm demoLm demoLm demoLm demoLm
    rfl rfl rfl rfl rfl rfl rfl

/-- C10: processing a valid frame and resetting both preserve the invariant
that the four history queues have equal lengths, the invariant that justifies
keying all four evictions on the elbow queue alone. -/
theorem C10_queues_equal_length :
    (∀ (lms : List (Option Landmark)) (data : AnalysisData),
      EqLen data → EqLenE (analyzeShootingForm lms data)) ∧
    EqLen resetStats.analysisData := by
  constructor
  · intro lms data hlen
    obtain ⟨hrl, hkl, hal⟩ := hlen
    simp only [analyzeShootingForm]
    split
    · simp only [EqLenE]
      split_ifs with hc <;>
        (simp [EqLen, List.length_tail, List.length_append]; omega)
    · simp [EqLenE]
  · exact ⟨rfl, rfl, rfl⟩

/-- Witness for C10 on concrete equal-length queues. -/
theorem C10_queues_equal_length_witness :
    EqLenE (analyzeShootingForm demoLms ⟨[3], [4], [5], [6]⟩) :=
  C10_queues_equal_length.1 demoLms ⟨[3], [4], [5], [6]⟩ ⟨rfl, rfl, rfl⟩

/-- C9: the classifier is a pure function of the current scores and smoothed
metrics; the overall tier follows the descending thresholds 85, 70, 50 with
first match winning, and each per-metric label follows its stated band. -/
theorem C9_classifier_bands :
    (∀ o : ℝ,
      (updateFeedback o = Tier.excellent ↔ 85 ≤ o) ∧
      (updateFeedback o = Tier.good ↔ 70 ≤ o ∧ o < 85) ∧
      (updateFeedback o = Tier.fair ↔ 50 ≤ o ∧ o < 70) ∧
      (updateFeedback o = Tier.needsImprovement ↔ o < 50)) ∧
    (∀ e : ℝ,
      (elbowStatus e = ElbowStatus.optimal ↔ 85 ≤ e ∧ e ≤ 95) ∧
      (elbowStatus e = ElbowStatus.raiseElbow ↔ e < 85) ∧
      (elbowStatus e = ElbowStatus.lowerElbow ↔ 95 < e)) ∧
    (∀ r : ℝ,
      (releaseStatus r = ReleaseStatus.optimal ↔ 45 ≤ r ∧ r ≤ 60) ∧
      (releaseStatus r = ReleaseStatus.tooLow ↔ r < 45) ∧
      (releaseStatus r = ReleaseStatus.tooHigh ↔ 60 < r)) ∧
    (∀ k : ℝ,
      (kneeStatus k = KneeStatus.optimal ↔ 100 ≤ k ∧ k ≤ 130) ∧
      (kneeStatus k = KneeStatus.bendMore ↔ k < 100) ∧
      (kneeStatus k = KneeStatus.tooBent ↔ 130 < k)) ∧
    (∀ a : ℝ,
      (alignmentStatus a = AlignmentStatus.optimal ↔ 90 ≤ a) ∧
      (alignmentStatus a = AlignmentStatus.checkShoulderLevel ↔ a < 90)) ∧
    (∀ e r k a : ℝ, updateStatusMessages e r k a =
      (elbowStatus e, releaseStatus r, kneeStatus k, alignmentStatus a)) := by
  refine ⟨?_, ?_, ?_, ?_, ?_, ?_⟩
  · intro o
    unfold updateFeedback
    split_ifs with h1 h2 h3 <;>
      refine ⟨?_, ?_, ?_, ?_⟩ <;>
      simp_all <;>
      first
        | linarith
        | (rintro ⟨hA, hB⟩; linarith)
        | (intro hA; linarith)
        | (constructor <;> linarith)
  · intro e
    unfold elbowStatus
    split_ifs with h1 h2 <;>
      refine ⟨?_, ?_, ?_⟩ <;>
      simp_all <;>
      first
        | linarith
        | (rintro ⟨hA, hB⟩; linarith)
        | (intro hA; linarith)
        | (constructor <;> linarith)
  · intro r
    unfold releaseStatus
    split_ifs with h1 h2 <;>
      refine ⟨?_, ?_, ?_⟩ <;>
      simp_all <;>
      first
        | linarith
        | (rintro ⟨hA, hB⟩; linarith)
        | (intro hA; linarith)
        | (constructor <;> linarith)
  · intro k
    unfold kneeStatus
    split_ifs with h1 h2 <;>
      refine ⟨?_, ?_, ?_⟩ <;>
      simp_all <;>
      first
        | linarith
        | (rintro ⟨hA, hB⟩; linarith)
        | (intro hA; linarith)
        | (constructor <;> linarith)
  · intro a
    unfold alignmentStatus
    split_ifs with h1 <;>
      refine ⟨?_, ?_⟩ <;>
      simp_all <;>
      first
        | linarith
        | (intro hA; linarith)
  · intro e r k a
    rfl
